import Mathlib

/-!
Verification of `intermediary.c` from alecthomas/exec: a process-supervision
shim.  The Launcher creates a process group, double-forks, and both the
original and the intermediate process run a watchdog loop
(`run_watchdog`) that polls the liveness of a monitored ancestor, checks
the supervised child's exit, and reaps stray children.

The C code is shallowly embedded: each system call's outcome is an input
(an environment), and each function's observable behaviour is an explicit
event trace plus an outcome.  Machine integers are modelled as `Int` /
`Nat`; the process exit status byte is taken modulo 256 as POSIX does.
-/

namespace Intermediary

/-- POSIX errno values relevant to the code; `other` stands for any errno
distinct from the ones the code inspects. -/
inductive Errno
  | esrch
  | echild
  | eperm
  | other
  deriving DecidableEq, Repr

/-- Signal number of SIGTERM on Linux. -/
def SIGTERM : Nat := 15

/-- Signal number of SIGKILL on Linux. -/
def SIGKILL : Nat := 9

/-- The wait status reported by `waitpid`, abstracted through the C
macros the code uses: `WIFEXITED`/`WEXITSTATUS`, `WIFSIGNALED`/`WTERMSIG`,
and anything else (stopped, continued). -/
inductive WaitStatus
  | exited (code : Nat)
  | signaled (sig : Nat)
  | otherStatus
  deriving DecidableEq, Repr

/-- Result of `waitpid(child_pid, &status, WNOHANG)` in the watchdog:
the child's status changed (`waitpid` returned `child_pid`), nothing
changed yet (returned 0), or an error (returned -1 with an errno). -/
inductive ChildWait
  | statusChanged (st : WaitStatus)
  | noChange
  | err (e : Errno)
  deriving DecidableEq, Repr

/-- Observable events of one watchdog iteration, in program order. -/
inductive Event
  | checkParent
  | killGroupCall
  | killpgSig (sig : Nat)
  | perrorEv (s : String)
  | usleepUs (n : Nat)
  | checkChild
  | reapSweepEv
  deriving DecidableEq, Repr

/-- Environment of a single iteration of the watchdog loop: the answers
the kernel gives to each system call the iteration makes. -/
structure IterEnv where
  /-- Outcome of `kill(parent_pid, 0)`: `none` is success (returned 0),
  `some e` is failure with errno `e`. -/
  parentKill : Option Errno
  /-- The current process-group id (`getpgrp()`), read inside
  `kill_process_group`. -/
  pgid : Int
  /-- The current process id (`getpid()`), read inside
  `kill_process_group`. -/
  selfPid : Int
  /-- Outcome of `killpg(pgid, SIGTERM)`: `none` success, `some e`
  failure with errno `e`. -/
  termErr : Option Errno
  /-- Outcome of `killpg(pgid, SIGKILL)`. -/
  killErr : Option Errno
  /-- Outcome of the targeted `waitpid(child_pid, &status, WNOHANG)`. -/
  childWait : ChildWait
  /-- The children successively reaped by the sweep
  `while ((result = waitpid(-1, &status, WNOHANG)) > 0)`, in order,
  as (pid, status) pairs; the loop stops after the list is exhausted
  (waitpid then returns 0 or -1). -/
  reaped : List (Int × WaitStatus)
  deriving DecidableEq, Repr

/-- `is_parent_alive(parent_pid)`: the C function returns
`kill(parent_pid, 0) == 0`, so any failure at all — including a
permission error for a live process — counts as "not alive". -/
def is_parent_alive (killResult : Option Errno) : Bool :=
  killResult.isNone

/-- Event trace of one `killpg` call followed by the code's error
handling: errors other than ESRCH are reported via `perror(msg)`,
ESRCH is silently ignored. -/
def killpg_events (sig : Nat) (msg : String) (res : Option Errno) : List Event :=
  Event.killpgSig sig ::
    match res with
    | some e => if e = Errno.esrch then [] else [Event.perrorEv msg]
    | none => []

/-- `kill_process_group()`: returns the event trace of the call.  If the
calling process is itself the group leader (`pgid == getpid()`), the
function returns immediately with no signalling.  Otherwise it attempts
`killpg(pgid, SIGTERM)`, sleeps 100ms, and attempts
`killpg(pgid, SIGKILL)`; each phase ignores ESRCH and reports any other
error without stopping. -/
def kill_process_group (pgid selfPid : Int) (termErr killErr : Option Errno) :
    List Event :=
  if pgid = selfPid then []
  else
    killpg_events SIGTERM "killpg SIGTERM" termErr ++
      [Event.usleepUs 100000] ++
      killpg_events SIGKILL "killpg SIGKILL" killErr

/-- The exit-status translation the watchdog applies to a reaped wait
status: `WIFEXITED` propagates `WEXITSTATUS`, `WIFSIGNALED` yields
`128 + WTERMSIG`, anything else yields 1. -/
def translate_status : WaitStatus → Nat
  | .exited c => c
  | .signaled s => 128 + s
  | .otherStatus => 1

/-- The reap sweep `while ((result = waitpid(-1, &status, WNOHANG)) > 0)`:
walks the reaped children in order; if one of them is the monitored
child, the watchdog exits at once with the translated status (`some`),
otherwise every entry is drained and the sweep completes (`none`). -/
def reap_sweep (child_pid : Int) : List (Int × WaitStatus) → Option Nat
  | [] => none
  | (pid, st) :: rest =>
      if pid = child_pid then some (translate_status st)
      else reap_sweep child_pid rest

/-- Result of one iteration of the watchdog's `while (1)` loop: either
the process calls `exit(code)` (carrying the iteration's event trace),
or the loop continues to the next iteration. -/
inductive IterResult
  | exitWith (code : Nat) (events : List Event)
  | next (events : List Event)
  deriving DecidableEq, Repr

/-- One iteration of the body of `run_watchdog`'s `while (1)` loop,
in program order: (1) check the ancestor via `is_parent_alive`; if dead,
call `kill_process_group()` and `exit(1)`; (2) `waitpid` on the
supervised child: translated exit on a status change, `exit(0)` on
ECHILD, `exit(1)` on any other error; (3) reap-sweep all other children,
exiting with the translation if the sweep reaps the supervised child;
(4) sleep 50ms and loop. -/
def run_watchdog_iter (child_pid : Int) (env : IterEnv) : IterResult :=
  if ¬ is_parent_alive env.parentKill then
    .exitWith 1
      ([Event.checkParent, Event.killGroupCall] ++
        kill_process_group env.pgid env.selfPid env.termErr env.killErr)
  else
    match env.childWait with
    | .statusChanged st =>
        .exitWith (translate_status st) [Event.checkParent, Event.checkChild]
    | .err e =>
        if e = Errno.echild then
          .exitWith 0 [Event.checkParent, Event.checkChild]
        else
          .exitWith 1
            [Event.checkParent, Event.checkChild, Event.perrorEv "waitpid"]
    | .noChange =>
        match reap_sweep child_pid env.reaped with
        | some code =>
            .exitWith code
              [Event.checkParent, Event.checkChild, Event.reapSweepEv]
        | none =>
            .next
              [Event.checkParent, Event.checkChild, Event.reapSweepEv,
                Event.usleepUs 50000]

/-- `run_watchdog(parent_pid, child_pid)`: runs the loop body over a
trace of per-iteration environments; `some (code, events)` means the
process exited with status `code` during an iteration whose trace was
`events`, `none` means the supplied trace ran out with the loop still
polling. -/
def run_watchdog (child_pid : Int) : List IterEnv → Option (Nat × List Event)
  | [] => none
  | env :: rest =>
      match run_watchdog_iter child_pid env with
      | .exitWith code events => some (code, events)
      | .next _ => run_watchdog child_pid rest

/-- Outcome of a `fork()` call as seen by one process: the call failed
(returned -1), this process is the parent (fork returned the child's
pid, which is positive), or this process is the child (fork returned
0). -/
inductive ForkResult
  | failed
  | inParent (child_pid : Int)
  | inChild
  deriving DecidableEq, Repr

/-- Observable events of the launcher-side code (`main`, `first_fork`,
`second_fork`, `exec_program`, `create_process_group`) as executed by one
process of the tree. -/
inductive ProcEvent
  | setpgrpCall
  | forkCall
  | watchdogStart
  | execvpCall
  | perrorCall (s : String)
  | usageMsg
  deriving DecidableEq, Repr

/-- How one process of the tree finishes the launcher-side code:
it returns an integer from `main` (POSIX turns this into the status byte
`r mod 256`), it calls `exit(c)` directly, its image is replaced by a
successful `execvp`, or it enters the `run_watchdog` loop (which never
returns; its behaviour is modelled by `run_watchdog` above). -/
inductive ProcOutcome
  | ret (r : Int)
  | exitedWith (c : Nat)
  | replaced
  | watchdog (monitored_parent child_pid : Int)
  deriving DecidableEq, Repr

/-- The execution of one process through the launcher-side code: its
final outcome and the events it performed, in order. -/
structure ProcRun where
  outcome : ProcOutcome
  events : List ProcEvent
  deriving DecidableEq, Repr

/-- The POSIX exit-status byte of a finished process: `main`'s return
value or `exit`'s argument, truncated to the low 8 bits.  `none` when
the process did not finish through these paths (image replaced, or
watchdog loop entered). -/
def exit_status : ProcOutcome → Option Nat
  | .ret r => some ((r % 256).toNat)
  | .exitedWith c => some (c % 256)
  | .replaced => none
  | .watchdog _ _ => none

/-- `create_process_group()`: `setpgrp()` failing yields `perror` and
return value -1; success yields 0. -/
def create_process_group (setpgrpFails : Bool) : Int × List ProcEvent :=
  if setpgrpFails then (-1, [ProcEvent.setpgrpCall, ProcEvent.perrorCall "setpgrp"])
  else (0, [ProcEvent.setpgrpCall])

/-- `exec_program(argc, argv)`: fewer than 2 arguments is a usage error
(`exit(1)`); otherwise `execvp` either replaces the image or fails, in
which case the process prints a diagnostic and calls `exit(1)`. -/
def exec_program (argc : Nat) (execFails : Bool) : ProcRun :=
  if argc < 2 then ⟨.exitedWith 1, [ProcEvent.usageMsg]⟩
  else if execFails then
    ⟨.exitedWith 1, [ProcEvent.execvpCall, ProcEvent.perrorCall "execvp"]⟩
  else ⟨.replaced, [ProcEvent.execvpCall]⟩

/-- `second_fork(parent_to_watch, argc, argv)` as executed by one
process: a failed fork yields `perror` and return value -1; the child
execs the target program; the parent (the intermediate process) becomes
the inner watchdog for the new child. -/
def second_fork (parent_to_watch : Int) (fork2 : ForkResult) (argc : Nat)
    (execFails : Bool) : ProcRun :=
  match fork2 with
  | .failed => ⟨.ret (-1), [ProcEvent.forkCall, ProcEvent.perrorCall "second fork"]⟩
  | .inChild =>
      let e := exec_program argc execFails
      ⟨e.outcome, ProcEvent.forkCall :: e.events⟩
  | .inParent child_pid =>
      ⟨.watchdog parent_to_watch child_pid,
        [ProcEvent.forkCall, ProcEvent.watchdogStart]⟩

/-- `first_fork(original_parent, argc, argv)` as executed by one
process (`current_pid` is the pid read before forking): a failed fork
yields `perror` and return value -1; the child proceeds to
`second_fork`; the parent (the original process) becomes the outer
watchdog for the first child. -/
def first_fork (original_parent current_pid : Int) (fork1 fork2 : ForkResult)
    (argc : Nat) (execFails : Bool) : ProcRun :=
  match fork1 with
  | .failed => ⟨.ret (-1), [ProcEvent.forkCall, ProcEvent.perrorCall "first fork"]⟩
  | .inChild =>
      let s := second_fork current_pid fork2 argc execFails
      ⟨s.outcome, ProcEvent.forkCall :: s.events⟩
  | .inParent child_pid =>
      ⟨.watchdog original_parent child_pid,
        [ProcEvent.forkCall, ProcEvent.watchdogStart]⟩

/-- `main(argc, argv)` as executed by one process: captures the original
parent pid, creates the process group (returning 1 on failure before any
fork), then runs the double-fork chain and returns its value. -/
def main_run (original_parent current_pid : Int) (setpgrpFails : Bool)
    (fork1 fork2 : ForkResult) (argc : Nat) (execFails : Bool) : ProcRun :=
  let cpg := create_process_group setpgrpFails
  if cpg.1 = -1 then ⟨.ret 1, cpg.2⟩
  else
    let f := first_fork original_parent current_pid fork1 fork2 argc execFails
    ⟨f.outcome, cpg.2 ++ f.events⟩

/-- The events of an iteration result, whether it exits or continues. -/
def iterEvents : IterResult → List Event
  | .exitWith _ e => e
  | .next e => e

/-- The POSIX status byte observed by the watchdog's parent when the
watchdog exits during the supplied trace: the argument of `exit`,
truncated to the low 8 bits. -/
def watchdog_exit_status (child_pid : Int) (t : List IterEnv) : Option Nat :=
  (run_watchdog child_pid t).map (fun r => r.1 % 256)

/-! ### Helper lemmas -/

theorem reap_sweep_eq_none_of_not_child (child_pid : Int) :
    ∀ l : List (Int × WaitStatus), (∀ p ∈ l, p.1 ≠ child_pid) →
      reap_sweep child_pid l = none := by
  intro l
  induction l with
  | nil => intro _; rfl
  | cons p rest ih =>
      intro h
      obtain ⟨pid, st⟩ := p
      have hpid : pid ≠ child_pid := h (pid, st) (List.mem_cons_self _ _)
      simp only [reap_sweep, if_neg hpid]
      exact ih fun q hq => h q (List.mem_cons_of_mem _ hq)

theorem reap_sweep_finds_child (child_pid : Int) (st : WaitStatus) :
    ∀ (pre post : List (Int × WaitStatus)), (∀ p ∈ pre, p.1 ≠ child_pid) →
      reap_sweep child_pid (pre ++ (child_pid, st) :: post) =
        some (translate_status st) := by
  intro pre
  induction pre with
  | nil => intro post _; simp [reap_sweep]
  | cons p rest ih =>
      intro post h
      obtain ⟨pid, st'⟩ := p
      have hpid : pid ≠ child_pid := h (pid, st') (List.mem_cons_self _ _)
      simp only [List.cons_append, reap_sweep, if_neg hpid]
      exact ih post fun q hq => h q (List.mem_cons_of_mem _ hq)

/-! ### Claims -/

/-- C1, counterexample: with the ancestor probe failing (ESRCH) the
watchdog exits with status 1, not 0 as claimed. -/
theorem watchdog_ancestor_dead_exit_zero_cex :
    watchdog_exit_status 42
        [⟨some Errno.esrch, 100, 101, none, none, ChildWait.noChange, []⟩] =
      some 1 ∧ (1 : Nat) ≠ 0 := by
  constructor
  · rfl
  · decide

/-- C1, amended: when the liveness probe of the monitored ancestor fails,
the watchdog invokes the termination protocol against the current process
group and then exits with status 1 (not 0). -/
theorem watchdog_ancestor_dead_cleanup_exit_one (child_pid : Int)
    (env : IterEnv) (rest : List IterEnv)
    (hDead : is_parent_alive env.parentKill = false) :
    run_watchdog child_pid (env :: rest) =
      some (1, [Event.checkParent, Event.killGroupCall] ++
        kill_process_group env.pgid env.selfPid env.termErr env.killErr) ∧
    watchdog_exit_status child_pid (env :: rest) = some 1 := by
  constructor
  · simp [run_watchdog, run_watchdog_iter, hDead]
  · simp [watchdog_exit_status, run_watchdog, run_watchdog_iter, hDead]

/-- C1 witness. -/
theorem watchdog_ancestor_dead_cleanup_exit_one_witness :
    run_watchdog 42
        [⟨some Errno.esrch, 100, 101, none, none, ChildWait.noChange, []⟩] =
      some (1, [Event.checkParent, Event.killGroupCall] ++
        kill_process_group 100 101 none none) ∧
    watchdog_exit_status 42
        [⟨some Errno.esrch, 100, 101, none, none, ChildWait.noChange, []⟩] =
      some 1 :=
  watchdog_ancestor_dead_cleanup_exit_one 42
    ⟨some Errno.esrch, 100, 101, none, none, ChildWait.noChange, []⟩ [] rfl

/-- C2: with the ancestor alive, a supervised-child termination observed
by the targeted non-blocking wait is translated exactly: normal exit with
code `c ≤ 255` yields watchdog status `c`, death by signal `s ≤ 127`
yields watchdog status `128 + s`. -/
theorem watchdog_child_exit_translation (child_pid : Int) (env : IterEnv)
    (rest : List IterEnv) (hAlive : is_parent_alive env.parentKill = true) :
    (∀ c : Nat, env.childWait = ChildWait.statusChanged (WaitStatus.exited c) →
      c ≤ 255 →
      watchdog_exit_status child_pid (env :: rest) = some c) ∧
    (∀ s : Nat, env.childWait = ChildWait.statusChanged (WaitStatus.signaled s) →
      s ≤ 127 →
      watchdog_exit_status child_pid (env :: rest) = some (128 + s)) := by
  have h : ¬ ¬ is_parent_alive env.parentKill = true := by simp [hAlive]
  constructor
  · intro c hc hle
    have : c % 256 = c := Nat.mod_eq_of_lt (by omega)
    simp [watchdog_exit_status, run_watchdog, run_watchdog_iter, hAlive, hc,
      translate_status, this]
  · intro s hs hle
    have : (128 + s) % 256 = 128 + s := Nat.mod_eq_of_lt (by omega)
    simp [watchdog_exit_status, run_watchdog, run_watchdog_iter, hAlive, hs,
      translate_status, this]

/-- C2 witness. -/
theorem watchdog_child_exit_translation_witness :
    watchdog_exit_status 42
        [⟨none, 100, 101, none, none,
          ChildWait.statusChanged (WaitStatus.exited 7), []⟩] = some 7 ∧
    watchdog_exit_status 42
        [⟨none, 100, 101, none, none,
          ChildWait.statusChanged (WaitStatus.signaled 9), []⟩] =
      some (128 + 9) :=
  ⟨(watchdog_child_exit_translation 42
      ⟨none, 100, 101, none, none,
        ChildWait.statusChanged (WaitStatus.exited 7), []⟩ [] rfl).1 7 rfl
      (by decide),
   (watchdog_child_exit_translation 42
      ⟨none, 100, 101, none, none,
        ChildWait.statusChanged (WaitStatus.signaled 9), []⟩ [] rfl).2 9 rfl
      (by decide)⟩

/-- C5: with the ancestor alive, when the targeted non-blocking wait
fails with ECHILD (no children remain), the watchdog exits with
status 0. -/
theorem watchdog_child_lost_exit_zero (child_pid : Int) (env : IterEnv)
    (rest : List IterEnv) (hAlive : is_parent_alive env.parentKill = true)
    (hLost : env.childWait = ChildWait.err Errno.echild) :
    watchdog_exit_status child_pid (env :: rest) = some 0 := by
  simp [watchdog_exit_status, run_watchdog, run_watchdog_iter, hAlive, hLost]

/-- C5 witness. -/
theorem watchdog_child_lost_exit_zero_witness :
    watchdog_exit_status 42
        [⟨none, 100, 101, none, none, ChildWait.err Errno.echild, []⟩] =
      some 0 :=
  watchdog_child_lost_exit_zero 42
    ⟨none, 100, 101, none, none, ChildWait.err Errno.echild, []⟩ [] rfl rfl

/-- C3: for a non-leader watchdog the termination protocol is an
escalation: `killpg SIGTERM`, a 100ms grace wait, then `killpg SIGKILL` —
the forced phase is reached for every outcome of the graceful phase.
Between and after the signal deliveries only error reports occur, and an
ESRCH ("no such process") outcome produces no report at all. -/
theorem kill_process_group_escalation (pgid selfPid : Int)
    (termErr killErr : Option Errno) (hNotLeader : pgid ≠ selfPid) :
    ∃ g f : List Event,
      kill_process_group pgid selfPid termErr killErr =
        Event.killpgSig SIGTERM :: g ++
          Event.usleepUs 100000 :: Event.killpgSig SIGKILL :: f ∧
      (∀ e ∈ g, ∃ s, e = Event.perrorEv s) ∧
      (∀ e ∈ f, ∃ s, e = Event.perrorEv s) ∧
      (termErr = some Errno.esrch → g = []) ∧
      (killErr = some Errno.esrch → f = []) := by
  refine ⟨(killpg_events SIGTERM "killpg SIGTERM" termErr).tail,
          (killpg_events SIGKILL "killpg SIGKILL" killErr).tail, ?_, ?_, ?_, ?_, ?_⟩
  · simp only [kill_process_group, if_neg hNotLeader, killpg_events]
    cases termErr with
    | none => cases killErr with
      | none => rfl
      | some e =>
          by_cases he : e = Errno.esrch <;> simp [he]
    | some e =>
        by_cases he : e = Errno.esrch <;> cases killErr with
        | none => simp [he]
        | some e' =>
            by_cases he' : e' = Errno.esrch <;> simp [he, he']
  · intro e he
    cases termErr with
    | none => simp [killpg_events] at he
    | some e' =>
        by_cases h : e' = Errno.esrch <;> simp [killpg_events, h] at he
        exact ⟨_, he⟩
  · intro e he
    cases killErr with
    | none => simp [killpg_events] at he
    | some e' =>
        by_cases h : e' = Errno.esrch <;> simp [killpg_events, h] at he
        exact ⟨_, he⟩
  · intro h; subst h; simp [killpg_events]
  · intro h; subst h; simp [killpg_events]

/-- C3 witness. -/
theorem kill_process_group_escalation_witness :
    ∃ g f : List Event,
      kill_process_group 100 101 (some Errno.esrch) none =
        Event.killpgSig SIGTERM :: g ++
          Event.usleepUs 100000 :: Event.killpgSig SIGKILL :: f ∧
      (∀ e ∈ g, ∃ s, e = Event.perrorEv s) ∧
      (∀ e ∈ f, ∃ s, e = Event.perrorEv s) ∧
      (some Errno.esrch = some Errno.esrch → g = []) ∧
      ((none : Option Errno) = some Errno.esrch → f = []) :=
  kill_process_group_escalation 100 101 (some Errno.esrch) none (by decide)

/-- C4: a watchdog that is itself the process-group leader no-ops the
termination protocol: the call produces no events at all, in particular
no signal delivery. -/
theorem kill_process_group_leader_noop (pgid selfPid : Int)
    (termErr killErr : Option Errno) (hLeader : pgid = selfPid) :
    kill_process_group pgid selfPid termErr killErr = [] ∧
    ∀ sig, Event.killpgSig sig ∉ kill_process_group pgid selfPid termErr killErr := by
  have h : kill_process_group pgid selfPid termErr killErr = [] := by
    simp [kill_process_group, hLeader]
  exact ⟨h, fun sig => by simp [h]⟩

/-- C4 witness. -/
theorem kill_process_group_leader_noop_witness :
    kill_process_group 100 100 (some Errno.other) (some Errno.other) = [] ∧
    ∀ sig, Event.killpgSig sig ∉
      kill_process_group 100 100 (some Errno.other) (some Errno.other) :=
  kill_process_group_leader_noop 100 100 (some Errno.other) (some Errno.other) rfl

/-- C6: in every watchdog iteration the ancestor check comes first, the
child check (when reached) comes second, and the reap-sweep (when
reached) comes third; and when the ancestor is dead — even if the child
has simultaneously exited — the iteration takes the cleanup path
(group termination, `exit(1)`) and never reaches the child check. -/
theorem watchdog_iter_check_ordering (child_pid : Int) (env : IterEnv) :
    (iterEvents (run_watchdog_iter child_pid env)).head? = some Event.checkParent ∧
    (Event.reapSweepEv ∈ iterEvents (run_watchdog_iter child_pid env) →
      (iterEvents (run_watchdog_iter child_pid env)).take 3 =
        [Event.checkParent, Event.checkChild, Event.reapSweepEv]) ∧
    (is_parent_alive env.parentKill = false →
      run_watchdog_iter child_pid env =
        IterResult.exitWith 1 ([Event.checkParent, Event.killGroupCall] ++
          kill_process_group env.pgid env.selfPid env.termErr env.killErr) ∧
      Event.checkChild ∉ iterEvents (run_watchdog_iter child_pid env)) := by
  by_cases hDead : is_parent_alive env.parentKill = false
  · refine ⟨?_, ?_, fun _ => ⟨?_, ?_⟩⟩ <;>
      simp [run_watchdog_iter, iterEvents, hDead, kill_process_group,
        killpg_events] <;>
      by_cases hL : env.pgid = env.selfPid <;>
      cases hT : env.termErr <;> cases hK : env.killErr <;>
      simp [hL, hT, hK]
  · have hAlive : is_parent_alive env.parentKill = true := by
      revert hDead; cases is_parent_alive env.parentKill <;> simp
    refine ⟨?_, ?_, fun h => absurd hAlive (by simp [h])⟩ <;>
      cases hc : env.childWait with
      | statusChanged st => simp [run_watchdog_iter, iterEvents, hAlive, hc]
      | noChange =>
          cases hr : reap_sweep child_pid env.reaped <;>
            simp [run_watchdog_iter, iterEvents, hAlive, hc, hr]
      | err e =>
          by_cases he : e = Errno.echild <;>
            simp [run_watchdog_iter, iterEvents, hAlive, hc, he]

/-- C6 witness. -/
theorem watchdog_iter_check_ordering_witness :
    ((iterEvents (run_watchdog_iter 42
        ⟨some Errno.esrch, 100, 101, none, none,
          ChildWait.statusChanged (WaitStatus.exited 3), []⟩)).head? =
      some Event.checkParent ∧
    (Event.reapSweepEv ∈ iterEvents (run_watchdog_iter 42
        ⟨some Errno.esrch, 100, 101, none, none,
          ChildWait.statusChanged (WaitStatus.exited 3), []⟩) →
      (iterEvents (run_watchdog_iter 42
        ⟨some Errno.esrch, 100, 101, none, none,
          ChildWait.statusChanged (WaitStatus.exited 3), []⟩)).take 3 =
        [Event.checkParent, Event.checkChild, Event.reapSweepEv]) ∧
    (is_parent_alive (some Errno.esrch) = false →
      run_watchdog_iter 42
          ⟨some Errno.esrch, 100, 101, none, none,
            ChildWait.statusChanged (WaitStatus.exited 3), []⟩ =
        IterResult.exitWith 1 ([Event.checkParent, Event.killGroupCall] ++
          kill_process_group 100 101 none none) ∧
      Event.checkChild ∉ iterEvents (run_watchdog_iter 42
        ⟨some Errno.esrch, 100, 101, none, none,
          ChildWait.statusChanged (WaitStatus.exited 3), []⟩))) ∧
    is_parent_alive (some Errno.esrch) = false :=
  ⟨watchdog_iter_check_ordering 42
    ⟨some Errno.esrch, 100, 101, none, none,
      ChildWait.statusChanged (WaitStatus.exited 3), []⟩, rfl⟩

/-- C7: with the ancestor alive and the targeted wait reporting no
change, the reap-sweep drains the terminated children in order; if it
reaches the supervised child it exits immediately with the translated
status (normal code `c`, or `128 + s` for signal `s`) instead of
continuing, and if the supervised child is not among the reaped children
the whole list is drained and the loop continues to the next
iteration. -/
theorem watchdog_reap_sweep_behavior (child_pid : Int) (env : IterEnv)
    (hAlive : is_parent_alive env.parentKill = true)
    (hNo : env.childWait = ChildWait.noChange) :
    (∀ (pre post : List (Int × WaitStatus)) (st : WaitStatus),
      env.reaped = pre ++ (child_pid, st) :: post →
      (∀ p ∈ pre, p.1 ≠ child_pid) →
      run_watchdog_iter child_pid env =
        IterResult.exitWith (translate_status st)
          [Event.checkParent, Event.checkChild, Event.reapSweepEv]) ∧
    ((∀ p ∈ env.reaped, p.1 ≠ child_pid) →
      run_watchdog_iter child_pid env =
        IterResult.next [Event.checkParent, Event.checkChild,
          Event.reapSweepEv, Event.usleepUs 50000]) := by
  constructor
  · intro pre post st hsplit hpre
    have hr : reap_sweep child_pid env.reaped = some (translate_status st) := by
      rw [hsplit]; exact reap_sweep_finds_child child_pid st pre post hpre
    simp [run_watchdog_iter, hAlive, hNo, hr]
  · intro hnone
    have hr : reap_sweep child_pid env.reaped = none :=
      reap_sweep_eq_none_of_not_child child_pid env.reaped hnone
    simp [run_watchdog_iter, hAlive, hNo, hr]

/-- C7 witness. -/
theorem watchdog_reap_sweep_behavior_witness :
    run_watchdog_iter 42
        ⟨none, 100, 101, none, none, ChildWait.noChange,
          [(7, WaitStatus.exited 0), (42, WaitStatus.signaled 9)]⟩ =
      IterResult.exitWith (translate_status (WaitStatus.signaled 9))
        [Event.checkParent, Event.checkChild, Event.reapSweepEv] :=
  (watchdog_reap_sweep_behavior 42
      ⟨none, 100, 101, none, none, ChildWait.noChange,
        [(7, WaitStatus.exited 0), (42, WaitStatus.signaled 9)]⟩ rfl rfl).1
    [(7, WaitStatus.exited 0)] [] (WaitStatus.signaled 9) rfl (by decide)

/-- C8: if process-group creation fails at start-up, `main` returns 1
(exit status 1, nonzero) having performed no fork and started no
watchdog loop. -/
theorem main_group_creation_failure (original_parent current_pid : Int)
    (fork1 fork2 : ForkResult) (argc : Nat) (execFails : Bool) :
    exit_status (main_run original_parent current_pid true fork1 fork2
        argc execFails).outcome = some 1 ∧
    (1 : Nat) ≠ 0 ∧
    (main_run original_parent current_pid true fork1 fork2
        argc execFails).events =
      [ProcEvent.setpgrpCall, ProcEvent.perrorCall "setpgrp"] ∧
    ProcEvent.forkCall ∉ (main_run original_parent current_pid true fork1
        fork2 argc execFails).events ∧
    ProcEvent.watchdogStart ∉ (main_run original_parent current_pid true
        fork1 fork2 argc execFails).events := by
  refine ⟨?_, by decide, ?_, ?_, ?_⟩ <;>
    simp [main_run, create_process_group, exit_status]

/-- C8 witness. -/
theorem main_group_creation_failure_witness :
    exit_status (main_run 10 11 true ForkResult.failed ForkResult.failed
        2 false).outcome = some 1 ∧
    (1 : Nat) ≠ 0 ∧
    (main_run 10 11 true ForkResult.failed ForkResult.failed 2 false).events =
      [ProcEvent.setpgrpCall, ProcEvent.perrorCall "setpgrp"] ∧
    ProcEvent.forkCall ∉ (main_run 10 11 true ForkResult.failed
        ForkResult.failed 2 false).events ∧
    ProcEvent.watchdogStart ∉ (main_run 10 11 true ForkResult.failed
        ForkResult.failed 2 false).events :=
  main_group_creation_failure 10 11 ForkResult.failed ForkResult.failed 2 false

/-- C9, counterexample: with the first fork failing, `main` returns -1,
so the process exit status byte is 255, not the claimed 1. -/
theorem fork_failure_exit_status_cex :
    exit_status (main_run 10 11 false ForkResult.failed ForkResult.failed
        2 false).outcome = some 255 ∧ (255 : Nat) ≠ 1 := by
  constructor
  · rfl
  · decide

/-- C9, amended: if either fork fails, the calling level reports an
error via `perror` and the process exits with the nonzero status 255
(main returns -1, truncated to the low byte), without starting a
watchdog loop at that level. -/
theorem fork_failure_nonzero_exit (original_parent current_pid : Int)
    (fork2 : ForkResult) (argc : Nat) (execFails : Bool) :
    (exit_status (main_run original_parent current_pid false
        ForkResult.failed fork2 argc execFails).outcome = some 255 ∧
      (255 : Nat) ≠ 0 ∧
      ProcEvent.perrorCall "first fork" ∈
        (main_run original_parent current_pid false ForkResult.failed fork2
          argc execFails).events ∧
      ProcEvent.watchdogStart ∉
        (main_run original_parent current_pid false ForkResult.failed fork2
          argc execFails).events) ∧
    (exit_status (main_run original_parent current_pid false
        ForkResult.inChild ForkResult.failed argc execFails).outcome =
        some 255 ∧
      ProcEvent.perrorCall "second fork" ∈
        (main_run original_parent current_pid false ForkResult.inChild
          ForkResult.failed argc execFails).events ∧
      ProcEvent.watchdogStart ∉
        (main_run original_parent current_pid false ForkResult.inChild
          ForkResult.failed argc execFails).events) := by
  refine ⟨⟨?_, by decide, ?_, ?_⟩, ?_, ?_, ?_⟩ <;>
    simp [main_run, create_process_group, first_fork, second_fork,
      exit_status]

/-- C9 witness. -/
theorem fork_failure_nonzero_exit_witness :
    (exit_status (main_run 10 11 false ForkResult.failed
        ForkResult.inChild 2 false).outcome = some 255 ∧
      (255 : Nat) ≠ 0 ∧
      ProcEvent.perrorCall "first fork" ∈
        (main_run 10 11 false ForkResult.failed ForkResult.inChild
          2 false).events ∧
      ProcEvent.watchdogStart ∉
        (main_run 10 11 false ForkResult.failed ForkResult.inChild
          2 false).events) ∧
    (exit_status (main_run 10 11 false ForkResult.inChild
        ForkResult.failed 2 false).outcome = some 255 ∧
      ProcEvent.perrorCall "second fork" ∈
        (main_run 10 11 false ForkResult.inChild ForkResult.failed
          2 false).events ∧
      ProcEvent.watchdogStart ∉
        (main_run 10 11 false ForkResult.inChild ForkResult.failed
          2 false).events) :=
  fork_failure_nonzero_exit 10 11 ForkResult.inChild 2 false

/-- C10: the ancestor-liveness probe treats any `kill(parent, 0)`
failure as death: a live ancestor for which delivery is denied (EPERM)
is classified dead, and the iteration behaves exactly as for a vanished
(ESRCH) ancestor — termination protocol invoked, then `exit(1)`. -/
theorem parent_probe_failure_treated_dead (child_pid : Int) (env : IterEnv)
    (hPerm : env.parentKill = some Errno.eperm) :
    is_parent_alive env.parentKill = false ∧
    run_watchdog_iter child_pid env =
      IterResult.exitWith 1 ([Event.checkParent, Event.killGroupCall] ++
        kill_process_group env.pgid env.selfPid env.termErr env.killErr) ∧
    run_watchdog_iter child_pid env =
      run_watchdog_iter child_pid { env with parentKill := some Errno.esrch } := by
  have hDead : is_parent_alive env.parentKill = false := by
    simp [is_parent_alive, hPerm]
  refine ⟨hDead, ?_, ?_⟩
  · simp [run_watchdog_iter, hDead]
  · simp [run_watchdog_iter, is_parent_alive, hPerm]

/-- C10 witness. -/
theorem parent_probe_failure_treated_dead_witness :
    is_parent_alive ((⟨some Errno.eperm, 100, 101, none, none,
        ChildWait.noChange, []⟩ : IterEnv).parentKill) = false ∧
    run_watchdog_iter 42
        ⟨some Errno.eperm, 100, 101, none, none, ChildWait.noChange, []⟩ =
      IterResult.exitWith 1 ([Event.checkParent, Event.killGroupCall] ++
        kill_process_group 100 101 none none) ∧
    run_watchdog_iter 42
        ⟨some Errno.eperm, 100, 101, none, none, ChildWait.noChange, []⟩ =
      run_watchdog_iter 42
        ⟨some Errno.esrch, 100, 101, none, none, ChildWait.noChange, []⟩ :=
  parent_probe_failure_treated_dead 42
    ⟨some Errno.eperm, 100, 101, none, none, ChildWait.noChange, []⟩ rfl

end Intermediary
